import Mathlib

/-!
Verification of the CodeChain transaction-admission pipeline and the block-sync
wire codec, embedded shallowly from the Rust sources
(`core/src/miner/miner.rs`, `sync/src/block/message.rs`).

External collaborators (the consensus engine, the chain-state client and the
transaction-queue `add` operation, all consumed by `miner.rs` through
interfaces) are kept abstract as records of functions; the orchestration code
of `miner.rs` itself, and the message codec of `message.rs`, are translated
definition by definition.
-/

namespace CodeChain

/-! ## Shared primitive stand-ins

Addresses, private keys, 256-bit hashes and 256-bit amounts are opaque to the
orchestration and codec code verified here; they are modelled as natural
numbers (with explicit width bounds where the codec checks them). -/

abbrev Address := Nat

abbrev Bytes := List Nat

/-- Stand-in for the external `ccore::Header` type: only its identity matters
to the code under verification (it is passed through and compared), never its
fields. -/
structure Header where
  val : Nat
deriving DecidableEq, Repr

/-- Stand-in for the external `UnverifiedTransaction` type; `hashVal` models
the content hash returned by `tx.hash()`. -/
structure UnverifiedTransaction where
  hashVal : Nat
deriving DecidableEq, Repr

def UnverifiedTransaction.hash (tx : UnverifiedTransaction) : Nat := tx.hashVal

/-- Stand-in for `SignedTransaction`: a sender-attributed wrapper around an
unverified transaction, produced by `verify_transaction_unordered`. -/
structure SignedTransaction where
  tx : UnverifiedTransaction
  sender : Address
deriving DecidableEq, Repr

def SignedTransaction.hash (t : SignedTransaction) : Nat := t.tx.hashVal

/-- Models the Rust `SignedTransaction -> UnverifiedTransaction` conversion
(`transaction.into()`): it forgets the recovered sender. -/
def SignedTransaction.into (t : SignedTransaction) : UnverifiedTransaction := t.tx

/-! ## RLP wire model (`sync/src/block/message.rs`)

The `rlp` crate's byte-level framing is external to this repository; what
`message.rs` itself determines is the item *structure* of each message.  RLP
values are therefore modelled as a tree whose leaves carry the numeric payload
of a byte string and whose nodes are item lists; Encodable writes such a tree
and Decodable pattern-matches on one, mirroring `RlpStream` appends and
`UntrustedRlp` accessors one for one. -/

inductive Rlp where
  | val : Nat → Rlp
  | list : List Rlp → Rlp

/-- Decoder errors of the `rlp` crate that `message.rs` can produce or
propagate. -/
inductive DecoderError where
  | RlpIncorrectListLen
  | RlpExpectedToBeList
  | RlpExpectedToBeData
  | RlpIsTooBig
  | RlpIsTooShort
  | Custom : String → DecoderError
deriving DecidableEq, Repr

/-- Models `UntrustedRlp::item_count()`: the number of items of a list, an
error on a data item. -/
def Rlp.item_count : Rlp → Except DecoderError Nat
  | .val _ => Except.error DecoderError.RlpExpectedToBeList
  | .list items => Except.ok items.length

/-- Models `UntrustedRlp::at(i)`. -/
def Rlp.atIndex : Rlp → Nat → Except DecoderError Rlp
  | .val _, _ => Except.error DecoderError.RlpExpectedToBeList
  | .list items, i =>
    match items.get? i with
    | some r => Except.ok r
    | none => Except.error DecoderError.RlpIsTooShort

/-- Models `UntrustedRlp::iter()`: the items of a list, nothing on a data
item. -/
def Rlp.iter : Rlp → List Rlp
  | .val _ => []
  | .list items => items

/-- Decoding a `u8` from an RLP item: a data item whose payload fits one
byte. -/
def Rlp.val_u8 : Rlp → Except DecoderError Nat
  | .val n => if n < 2 ^ 8 then Except.ok n else Except.error DecoderError.RlpIsTooBig
  | .list _ => Except.error DecoderError.RlpExpectedToBeData

/-- Decoding a `u64` (block numbers, counts). -/
def Rlp.val_u64 : Rlp → Except DecoderError Nat
  | .val n => if n < 2 ^ 64 then Except.ok n else Except.error DecoderError.RlpIsTooBig
  | .list _ => Except.error DecoderError.RlpExpectedToBeData

/-- Decoding a `U256` or `H256`: a data item of at most 32 bytes of
payload. -/
def Rlp.val_u256 : Rlp → Except DecoderError Nat
  | .val n => if n < 2 ^ 256 then Except.ok n else Except.error DecoderError.RlpIsTooBig
  | .list _ => Except.error DecoderError.RlpExpectedToBeData

/-- Stand-in codec for the external `Header` type (its own RLP layout lives in
`ccore`, outside this repository); it is injective, which is all the message
round-trip depends on. -/
def Header.rlp_enc (h : Header) : Rlp := Rlp.val h.val

def Header.rlp_dec : Rlp → Except DecoderError Header
  | .val n => Except.ok ⟨n⟩
  | .list _ => Except.error DecoderError.RlpExpectedToBeData

/-- Stand-in codec for the external `UnverifiedTransaction` type. -/
def UnverifiedTransaction.rlp_enc (tx : UnverifiedTransaction) : Rlp := Rlp.val tx.hashVal

def UnverifiedTransaction.rlp_dec : Rlp → Except DecoderError UnverifiedTransaction
  | .val n => Except.ok ⟨n⟩
  | .list _ => Except.error DecoderError.RlpExpectedToBeData

/-- Decode every item of a list in order, aborting at the first failure; the
item-wise engine behind `UntrustedRlp::as_list()`. -/
def decode_items {α : Type} (dec : Rlp → Except DecoderError α) :
    List Rlp → Except DecoderError (List α)
  | [] => Except.ok []
  | r :: rest =>
    match dec r with
    | Except.error e => Except.error e
    | Except.ok x =>
      match decode_items dec rest with
      | Except.error e => Except.error e
      | Except.ok xs => Except.ok (x :: xs)

/-- Models `UntrustedRlp::as_list()`: requires a list and decodes each item. -/
def Rlp.as_list {α : Type} (dec : Rlp → Except DecoderError α) : Rlp → Except DecoderError (List α)
  | .val _ => Except.error DecoderError.RlpExpectedToBeList
  | .list items => decode_items dec items

def MESSAGE_ID_STATUS : Nat := 0x01
def MESSAGE_ID_REQUEST_HEADERS : Nat := 0x02
def MESSAGE_ID_HEADERS : Nat := 0x03
def MESSAGE_ID_REQUEST_BODIES : Nat := 0x04
def MESSAGE_ID_BODIES : Nat := 0x05

/-- The block-sync wire message, from `sync/src/block/message.rs`. -/
inductive Message where
  | Status : (total_score : Nat) → (best_hash : Nat) → (genesis_hash : Nat) → Message
  | RequestHeaders : (start_number : Nat) → (max_count : Nat) → Message
  | Headers : List Header → Message
  | RequestBodies : List Nat → Message
  | Bodies : List (List UnverifiedTransaction) → Message
deriving DecidableEq, Repr

/-- Embedding of `impl Encodable for Message::rlp_append`: a length-2 list of
the message id and the body. -/
def Message.rlp_append : Message → Rlp
  | .Status total_score best_hash genesis_hash =>
    Rlp.list [Rlp.val MESSAGE_ID_STATUS,
      Rlp.list [Rlp.val total_score, Rlp.val best_hash, Rlp.val genesis_hash]]
  | .RequestHeaders start_number max_count =>
    Rlp.list [Rlp.val MESSAGE_ID_REQUEST_HEADERS,
      Rlp.list [Rlp.val start_number, Rlp.val max_count]]
  | .Headers headers =>
    Rlp.list [Rlp.val MESSAGE_ID_HEADERS, Rlp.list (headers.map Header.rlp_enc)]
  | .RequestBodies hashes =>
    Rlp.list [Rlp.val MESSAGE_ID_REQUEST_BODIES, Rlp.list (hashes.map Rlp.val)]
  | .Bodies bodies =>
    Rlp.list [Rlp.val MESSAGE_ID_BODIES,
      Rlp.list (bodies.map (fun body => Rlp.list (body.map UnverifiedTransaction.rlp_enc)))]

/-- Embedding of `impl Decodable for Message::decode`, accessor for
accessor. -/
def Message.decode (rlp : Rlp) : Except DecoderError Message := do
  let n ← rlp.item_count
  if n ≠ 2 then throw DecoderError.RlpIncorrectListLen else
  let idItem ← rlp.atIndex 0
  let id ← idItem.val_u8
  let message ← rlp.atIndex 1
  if id = MESSAGE_ID_STATUS then do
    let cnt ← message.item_count
    if cnt ≠ 3 then throw DecoderError.RlpIncorrectListLen else
    let i0 ← message.atIndex 0
    let total_score ← i0.val_u256
    let i1 ← message.atIndex 1
    let best_hash ← i1.val_u256
    let i2 ← message.atIndex 2
    let genesis_hash ← i2.val_u256
    pure (Message.Status total_score best_hash genesis_hash)
  else if id = MESSAGE_ID_REQUEST_HEADERS then do
    let cnt ← message.item_count
    if cnt ≠ 2 then throw DecoderError.RlpIncorrectListLen else
    let i0 ← message.atIndex 0
    let start_number ← i0.val_u64
    let i1 ← message.atIndex 1
    let max_count ← i1.val_u64
    pure (Message.RequestHeaders start_number max_count)
  else if id = MESSAGE_ID_HEADERS then do
    let headers ← message.as_list Header.rlp_dec
    pure (Message.Headers headers)
  else if id = MESSAGE_ID_REQUEST_BODIES then do
    let hashes ← message.as_list Rlp.val_u256
    pure (Message.RequestBodies hashes)
  else if id = MESSAGE_ID_BODIES then do
    let bodies ← decode_items (Rlp.as_list UnverifiedTransaction.rlp_dec) message.iter
    pure (Message.Bodies bodies)
  else
    throw (DecoderError.Custom "Unknown message id detected")

/-- Width constraints the Rust field types (`U256`, `H256`, `u64`) impose by
construction; our Nat stand-ins state them explicitly. -/
def Message.wf : Message → Bool
  | .Status total_score best_hash genesis_hash =>
    total_score < 2 ^ 256 && best_hash < 2 ^ 256 && genesis_hash < 2 ^ 256
  | .RequestHeaders start_number max_count =>
    start_number < 2 ^ 64 && max_count < 2 ^ 64
  | .Headers _ => true
  | .RequestBodies hashes => hashes.all (fun h => h < 2 ^ 256)
  | .Bodies _ => true

/-! ## Miner admission model (`core/src/miner/miner.rs`)

The miner's collaborators — the chain-state client, the consensus engine and
the transaction-queue `add` operation (whose module is not among the provided
sources) — are consumed by `miner.rs` purely through interfaces, so they are
embedded as records of functions; `miner.rs` itself is translated function by
function below them. -/

/-- Transaction-level admission errors surfaced by `miner.rs`
(`TransactionError::AlreadyImported` is the one it constructs itself). -/
inductive TransactionError where
  | AlreadyImported
  | TooCheapToReplace
  | LimitReached
  | InsufficientBalance
  | InvalidSignature
deriving DecidableEq, Repr

/-- The `Error` type of `core`: transaction errors plus the engine- and
state-level kinds opaque to the miner, collapsed into `Other`. -/
inductive Error where
  | Transaction : TransactionError → Error
  | Other : Nat → Error
deriving DecidableEq, Repr

inductive TransactionOrigin where
  | Local
  | External
deriving DecidableEq, Repr

inductive TransactionImportResult where
  | Current
  | Future
deriving DecidableEq, Repr

/-- Account state handed to the queue, built by
`TransactionDetailsProvider::fetch_account`. -/
structure AccountDetails where
  nonce : Nat
  balance : Nat
deriving DecidableEq, Repr

structure QueueStatus where
  pending : Nat
  future : Nat
deriving DecidableEq, Repr

/-- Abstract state of the transaction queue: the observables `miner.rs` reads
from it.  The queue's own module is not among the provided sources, so its
state is opaque here and its `add` operation is a parameter (`QueueOps`). -/
structure TransactionQueue where
  top_transactions : List SignedTransaction
  future_transactions : List SignedTransaction
  status : QueueStatus
  minimal_fee : Nat
  limit : Nat
deriving DecidableEq, Repr

/-- The chain-state reader interface (`AccountData + BlockChain`) consumed by
the miner: best-block header, chain info, transaction lookup by hash, and
account state. -/
structure Client where
  best_block_header : Header
  best_block_number : Nat
  transaction_block : Nat → Option Nat
  latest_nonce : Address → Nat
  latest_balance : Address → Nat

/-- The consensus-engine interface (`CodeChainEngine`) consumed by the miner,
with the signer it may hold when sealing internally. -/
structure Engine where
  verify_transaction_basic : UnverifiedTransaction → Header → Except Error Unit
  verify_transaction_unordered : UnverifiedTransaction → Header → Except Error SignedTransaction
  machine_verify_transaction : SignedTransaction → Header → Client → Except Error Unit
  seals_internally : Option Bool
  signer : Option (Address × Nat)

/-- Modelled from the spec: the engine interface `set_signer(address,
private_key)` — the engine records the signing identity handed to it. -/
def Engine.set_signer (e : Engine) (address : Address) (priv : Nat) : Engine :=
  { e with signer := some (address, priv) }

/-- The transaction queue's `add` operation, kept abstract: its module is not
among the provided sources and `miner.rs` only calls it.  On success it
returns the import result and the updated queue; on failure the queue is
untouched (the `?` in `miner.rs` propagates the error). -/
structure QueueOps where
  add : TransactionQueue → SignedTransaction → TransactionOrigin → Nat →
    (Address → AccountDetails) → Except Error (TransactionImportResult × TransactionQueue)

/-- Embedding of `TransactionDetailsProvider::fetch_account`: reads nonce and
balance from the client. -/
def fetch_account (client : Client) (address : Address) : AccountDetails :=
  { nonce := client.latest_nonce address, balance := client.latest_balance address }

/-- The miner's own state: the queue behind its `RwLock`, the author and
extra-data cells, and the engine handle. -/
structure Miner where
  transaction_queue : TransactionQueue
  author : Address
  extra_data : Bytes
  engine : Engine

/-- The per-transaction body of the loop in `Miner::add_transactions_to_queue`,
returning the transaction's result and the queue state after it:
already-in-chain check, then `verify_transaction_basic` chained with
`verify_transaction_unordered`, then `machine().verify_transaction`, and only
then `transaction_queue.add`. -/
def process_transaction (ops : QueueOps) (m : Miner) (client : Client)
    (best_block_header : Header) (insertion_time : Nat)
    (default_origin : TransactionOrigin) (q : TransactionQueue)
    (tx : UnverifiedTransaction) :
    Except Error TransactionImportResult × TransactionQueue :=
  if (client.transaction_block tx.hash).isSome then
    (Except.error (Error.Transaction TransactionError.AlreadyImported), q)
  else
    match (m.engine.verify_transaction_basic tx best_block_header).bind
        (fun _ => m.engine.verify_transaction_unordered tx best_block_header) with
    | Except.error e => (Except.error e, q)
    | Except.ok transaction =>
      match m.engine.machine_verify_transaction transaction best_block_header client with
      | Except.error e => (Except.error e, q)
      | Except.ok _ =>
        let origin := default_origin
        match ops.add q transaction origin insertion_time (fetch_account client) with
        | Except.error e => (Except.error e, q)
        | Except.ok (result, q2) => (Except.ok result, q2)

/-- The loop of `Miner::add_transactions_to_queue`: one result per input, the
queue state threaded left to right. -/
def run_transactions (ops : QueueOps) (m : Miner) (client : Client)
    (best_block_header : Header) (insertion_time : Nat)
    (default_origin : TransactionOrigin) :
    List UnverifiedTransaction → TransactionQueue →
    List (Except Error TransactionImportResult) × TransactionQueue
  | [], q => ([], q)
  | tx :: rest, q =>
    let pr := process_transaction ops m client best_block_header insertion_time default_origin q tx
    let rr := run_transactions ops m client best_block_header insertion_time default_origin rest pr.2
    (pr.1 :: rr.1, rr.2)

/-- Embedding of `Miner::add_transactions_to_queue`: the best-block header and
the insertion time (the chain's best block number) are read once, before the
loop. -/
def Miner.add_transactions_to_queue (ops : QueueOps) (m : Miner) (client : Client)
    (transactions : List UnverifiedTransaction) (default_origin : TransactionOrigin)
    (transaction_queue : TransactionQueue) :
    List (Except Error TransactionImportResult) × TransactionQueue :=
  let best_block_header := client.best_block_header
  let insertion_time := client.best_block_number
  run_transactions ops m client best_block_header insertion_time default_origin
    transactions transaction_queue

/-- Embedding of `Miner::import_external_transactions`: takes the queue behind
the write lock and runs the batch with origin `External`. -/
def Miner.import_external_transactions (ops : QueueOps) (m : Miner) (client : Client)
    (transactions : List UnverifiedTransaction) :
    List (Except Error TransactionImportResult) × Miner :=
  let r := Miner.add_transactions_to_queue ops m client transactions
    TransactionOrigin.External m.transaction_queue
  (r.1, { m with transaction_queue := r.2 })

/-- Models `Vec::pop()`: removes and returns the last element. -/
def vec_pop {α : Type} (l : List α) : Option α := l.getLast?

/-- Embedding of `Miner::import_own_transaction`: the single transaction is
converted back to unverified form and sent through the same batch path with
origin `Local`; `none` models the `.expect(...)` panic that fires when the
batch helper returns no result for the one input. -/
def Miner.import_own_transaction (ops : QueueOps) (m : Miner) (chain : Client)
    (transaction : SignedTransaction) :
    Option (Except Error TransactionImportResult × Miner) :=
  let r := Miner.add_transactions_to_queue ops m chain [transaction.into]
    TransactionOrigin.Local m.transaction_queue
  match vec_pop r.1 with
  | none => none
  | some imp => some (imp, { m with transaction_queue := r.2 })

structure MinerStatus where
  transactions_in_pending_queue : Nat
  transactions_in_future_queue : Nat
  transactions_in_pending_block : Nat
deriving DecidableEq, Repr

/-- Embedding of `Miner::status`: reads the queue's status under the read
lock; the pending-block count is not tracked here and reported as zero.  The
returned `Miner` is the state after the call (read-only operations are
state-passing with an unchanged state). -/
def Miner.status (m : Miner) : MinerStatus × Miner :=
  let status := m.transaction_queue.status
  ({ transactions_in_pending_queue := status.pending,
     transactions_in_future_queue := status.future,
     transactions_in_pending_block := 0 }, m)

/-- Embedding of `Miner::ready_transactions`: the queue's top transactions. -/
def Miner.ready_transactions (m : Miner) : List SignedTransaction × Miner :=
  (m.transaction_queue.top_transactions, m)

/-- Embedding of `Miner::future_transactions`. -/
def Miner.future_transactions (m : Miner) : List SignedTransaction × Miner :=
  (m.transaction_queue.future_transactions, m)

/-- Embedding of `Miner::set_engine_signer`: forwards to the engine only when
`seals_internally()` reports `Some`. -/
def Miner.set_engine_signer (m : Miner) (address : Address) (priv : Nat) : Miner :=
  if m.engine.seals_internally.isSome then
    { m with engine := m.engine.set_signer address priv }
  else
    m

/-! ## Helper lemmas -/

/-- Decoding the item-wise encoding of a list returns the list, provided each
element round-trips. -/
theorem decode_items_map_enc {α : Type} (dec : Rlp → Except DecoderError α) (enc : α → Rlp) :
    ∀ l : List α, (∀ x ∈ l, dec (enc x) = Except.ok x) →
      decode_items dec (l.map enc) = Except.ok l
  | [], _ => rfl
  | x :: xs, h => by
    have hx : dec (enc x) = Except.ok x := h x (List.mem_cons_self x xs)
    have hxs := decode_items_map_enc dec enc xs (fun y hy => h y (List.mem_cons_of_mem x hy))
    simp [List.map, decode_items, hx, hxs]

/-- C4: decoding the RLP encoding of any well-formed wire message of any of
the five kinds (Status, RequestHeaders, Headers, RequestBodies, Bodies)
returns the message itself. -/
theorem message_rlp_roundtrip (msg : Message) (h : msg.wf = true) :
    Message.decode (Message.rlp_append msg) = Except.ok msg := by
  cases msg with
  | Status total_score best_hash genesis_hash =>
    simp only [Message.wf, Bool.and_eq_true, decide_eq_true_eq] at h
    obtain ⟨⟨h1, h2⟩, h3⟩ := h
    have e1 : Rlp.val_u256 (Rlp.val total_score) = Except.ok total_score := if_pos h1
    have e2 : Rlp.val_u256 (Rlp.val best_hash) = Except.ok best_hash := if_pos h2
    have e3 : Rlp.val_u256 (Rlp.val genesis_hash) = Except.ok genesis_hash := if_pos h3
    simp [Message.rlp_append, Message.decode, Rlp.item_count, Rlp.atIndex, Rlp.val_u8,
      MESSAGE_ID_STATUS, bind, Except.bind, pure, Except.pure, e1, e2, e3]
  | RequestHeaders start_number max_count =>
    simp only [Message.wf, Bool.and_eq_true, decide_eq_true_eq] at h
    obtain ⟨h1, h2⟩ := h
    have e1 : Rlp.val_u64 (Rlp.val start_number) = Except.ok start_number := if_pos h1
    have e2 : Rlp.val_u64 (Rlp.val max_count) = Except.ok max_count := if_pos h2
    simp [Message.rlp_append, Message.decode, Rlp.item_count, Rlp.atIndex, Rlp.val_u8,
      MESSAGE_ID_STATUS, MESSAGE_ID_REQUEST_HEADERS, bind, Except.bind, pure, Except.pure,
      e1, e2]
  | Headers headers =>
    have hl : decode_items Header.rlp_dec (headers.map Header.rlp_enc) = Except.ok headers :=
      decode_items_map_enc _ _ headers (fun x _ => rfl)
    simp [Message.rlp_append, Message.decode, Rlp.item_count, Rlp.atIndex, Rlp.val_u8,
      Rlp.as_list, MESSAGE_ID_STATUS, MESSAGE_ID_REQUEST_HEADERS, MESSAGE_ID_HEADERS,
      bind, Except.bind, pure, Except.pure, hl]
  | RequestBodies hashes =>
    simp only [Message.wf, List.all_eq_true, decide_eq_true_eq] at h
    have hl : decode_items Rlp.val_u256 (hashes.map Rlp.val) = Except.ok hashes :=
      decode_items_map_enc _ _ hashes (fun x hx => if_pos (h x hx))
    simp [Message.rlp_append, Message.decode, Rlp.item_count, Rlp.atIndex, Rlp.val_u8,
      Rlp.as_list, MESSAGE_ID_STATUS, MESSAGE_ID_REQUEST_HEADERS, MESSAGE_ID_HEADERS,
      MESSAGE_ID_REQUEST_BODIES, bind, Except.bind, pure, Except.pure, hl]
  | Bodies bodies =>
    have hinner : ∀ body ∈ bodies,
        Rlp.as_list UnverifiedTransaction.rlp_dec
          (Rlp.list (body.map UnverifiedTransaction.rlp_enc)) = Except.ok body := by
      intro body _
      simpa [Rlp.as_list] using
        decode_items_map_enc UnverifiedTransaction.rlp_dec UnverifiedTransaction.rlp_enc
          body (fun x _ => rfl)
    have hl : decode_items (Rlp.as_list UnverifiedTransaction.rlp_dec)
        (bodies.map (fun body => Rlp.list (body.map UnverifiedTransaction.rlp_enc))) =
        Except.ok bodies :=
      decode_items_map_enc _ _ bodies hinner
    simp [Message.rlp_append, Message.decode, Rlp.item_count, Rlp.atIndex, Rlp.val_u8,
      Rlp.iter, MESSAGE_ID_STATUS, MESSAGE_ID_REQUEST_HEADERS, MESSAGE_ID_HEADERS,
      MESSAGE_ID_REQUEST_BODIES, MESSAGE_ID_BODIES, bind, Except.bind, pure, Except.pure, hl]

/-- C5: `Message::decode` fails with `RlpIncorrectListLen` when the outer list
is not of length 2, or a Status body is not of length 3, or a RequestHeaders
body is not of length 2; any `u8` id outside `0x01`–`0x05` fails with the
custom unknown-message-id error. -/
theorem message_decode_error_cases :
    (∀ items : List Rlp, items.length ≠ 2 →
      Message.decode (Rlp.list items) = Except.error DecoderError.RlpIncorrectListLen)
    ∧ (∀ body : List Rlp, body.length ≠ 3 →
      Message.decode (Rlp.list [Rlp.val MESSAGE_ID_STATUS, Rlp.list body]) =
        Except.error DecoderError.RlpIncorrectListLen)
    ∧ (∀ body : List Rlp, body.length ≠ 2 →
      Message.decode (Rlp.list [Rlp.val MESSAGE_ID_REQUEST_HEADERS, Rlp.list body]) =
        Except.error DecoderError.RlpIncorrectListLen)
    ∧ (∀ (id : Nat) (body : Rlp), id < 2 ^ 8 →
      id ∉ ([MESSAGE_ID_STATUS, MESSAGE_ID_REQUEST_HEADERS, MESSAGE_ID_HEADERS,
        MESSAGE_ID_REQUEST_BODIES, MESSAGE_ID_BODIES] : List Nat) →
      Message.decode (Rlp.list [Rlp.val id, body]) =
        Except.error (DecoderError.Custom "Unknown message id detected")) := by
  refine ⟨?_, ?_, ?_, ?_⟩
  · intro items hlen
    simp [Message.decode, Rlp.item_count, bind, Except.bind, throw, throwThe,
      MonadExceptOf.throw, hlen]
  · intro body hlen
    simp [Message.decode, Rlp.item_count, Rlp.atIndex, Rlp.val_u8, MESSAGE_ID_STATUS,
      bind, Except.bind, throw, throwThe, MonadExceptOf.throw, hlen]
  · intro body hlen
    simp [Message.decode, Rlp.item_count, Rlp.atIndex, Rlp.val_u8, MESSAGE_ID_STATUS,
      MESSAGE_ID_REQUEST_HEADERS, bind, Except.bind, throw, throwThe, MonadExceptOf.throw,
      hlen]
  · intro id body hid hmem
    simp only [List.mem_cons, List.mem_singleton, not_or, MESSAGE_ID_STATUS,
      MESSAGE_ID_REQUEST_HEADERS, MESSAGE_ID_HEADERS, MESSAGE_ID_REQUEST_BODIES,
      MESSAGE_ID_BODIES] at hmem
    obtain ⟨h1, h2, h3, h4, h5, -⟩ := hmem
    have e0 : Rlp.val_u8 (Rlp.val id) = Except.ok id := if_pos hid
    simp [Message.decode, Rlp.item_count, Rlp.atIndex, MESSAGE_ID_STATUS,
      MESSAGE_ID_REQUEST_HEADERS, MESSAGE_ID_HEADERS, MESSAGE_ID_REQUEST_BODIES,
      MESSAGE_ID_BODIES, bind, Except.bind, throw, throwThe, MonadExceptOf.throw,
      e0, h1, h2, h3, h4, h5]

/-- The batch loop returns one result per input. -/
theorem run_transactions_length (ops : QueueOps) (m : Miner) (client : Client)
    (header : Header) (time : Nat) (origin : TransactionOrigin) :
    ∀ (txs : List UnverifiedTransaction) (q : TransactionQueue),
      (run_transactions ops m client header time origin txs q).1.length = txs.length
  | [], _ => rfl
  | _ :: rest, q => by
    simp [run_transactions, run_transactions_length ops m client header time origin rest _]

/-- The i-th batch result is the processing of the i-th input, from the queue
state left by the first i inputs. -/
theorem run_transactions_get (ops : QueueOps) (m : Miner) (client : Client)
    (header : Header) (time : Nat) (origin : TransactionOrigin) :
    ∀ (txs : List UnverifiedTransaction) (q : TransactionQueue) (i : Nat)
      (tx : UnverifiedTransaction), txs[i]? = some tx →
      (run_transactions ops m client header time origin txs q).1[i]? =
        some (process_transaction ops m client header time origin
          (run_transactions ops m client header time origin (txs.take i) q).2 tx).1
  | [], _, i, tx, h => by simp at h
  | tx0 :: rest, q, 0, tx, h => by
    simp only [List.getElem?_cons_zero, Option.some.injEq] at h
    subst h
    simp [run_transactions]
  | tx0 :: rest, q, i + 1, tx, h => by
    simp only [List.getElem?_cons_succ] at h
    simpa [run_transactions, List.take] using
      run_transactions_get ops m client header time origin rest
        (process_transaction ops m client header time origin q tx0).2 i tx h

/-- C1: admission validates in order — already-in-chain check, engine basic
verification, engine unordered verification, machine verification — each
short-circuiting with the step's error and an unchanged queue, and
`transaction_queue.add` is reached only when all four succeed. -/
theorem admission_validation_order (ops : QueueOps) (m : Miner) (client : Client)
    (header : Header) (time : Nat) (origin : TransactionOrigin)
    (q : TransactionQueue) (tx : UnverifiedTransaction) :
    ((client.transaction_block tx.hash).isSome →
      process_transaction ops m client header time origin q tx =
        (Except.error (Error.Transaction TransactionError.AlreadyImported), q))
    ∧ (∀ e, client.transaction_block tx.hash = none →
      m.engine.verify_transaction_basic tx header = Except.error e →
      process_transaction ops m client header time origin q tx = (Except.error e, q))
    ∧ (∀ e, client.transaction_block tx.hash = none →
      m.engine.verify_transaction_basic tx header = Except.ok () →
      m.engine.verify_transaction_unordered tx header = Except.error e →
      process_transaction ops m client header time origin q tx = (Except.error e, q))
    ∧ (∀ t e, client.transaction_block tx.hash = none →
      m.engine.verify_transaction_basic tx header = Except.ok () →
      m.engine.verify_transaction_unordered tx header = Except.ok t →
      m.engine.machine_verify_transaction t header client = Except.error e →
      process_transaction ops m client header time origin q tx = (Except.error e, q))
    ∧ (∀ t, client.transaction_block tx.hash = none →
      m.engine.verify_transaction_basic tx header = Except.ok () →
      m.engine.verify_transaction_unordered tx header = Except.ok t →
      m.engine.machine_verify_transaction t header client = Except.ok () →
      process_transaction ops m client header time origin q tx =
        (match ops.add q t origin time (fetch_account client) with
         | Except.error e => (Except.error e, q)
         | Except.ok (result, q2) => (Except.ok result, q2))) := by
  refine ⟨?_, ?_, ?_, ?_, ?_⟩
  · intro hin
    simp [process_transaction, hin]
  · intro e hni hb
    simp [process_transaction, hni, hb, Except.bind]
  · intro e hni hb hu
    simp [process_transaction, hni, hb, hu, Except.bind]
  · intro t e hni hb hu hm
    simp [process_transaction, hni, hb, hu, hm, Except.bind]
  · intro t hni hb hu hm
    simp [process_transaction, hni, hb, hu, hm, Except.bind]

/-- C2: a transaction whose hash the chain reader already locates in a block
is rejected with `AlreadyImported`, with the queue untouched — for any engine
and any queue behavior, hence regardless of fee and with no further
validation — and so is its slot in any batch. -/
theorem already_imported_always_rejected (ops : QueueOps) (m : Miner) (client : Client) :
    (∀ (header : Header) (time : Nat) (origin : TransactionOrigin)
      (q : TransactionQueue) (tx : UnverifiedTransaction),
      (client.transaction_block tx.hash).isSome →
      process_transaction ops m client header time origin q tx =
        (Except.error (Error.Transaction TransactionError.AlreadyImported), q))
    ∧ (∀ (txs : List UnverifiedTransaction) (origin : TransactionOrigin)
      (q : TransactionQueue) (i : Nat) (tx : UnverifiedTransaction),
      txs[i]? = some tx →
      (client.transaction_block tx.hash).isSome →
      (Miner.add_transactions_to_queue ops m client txs origin q).1[i]? =
        some (Except.error (Error.Transaction TransactionError.AlreadyImported))) := by
  constructor
  · intro header time origin q tx hin
    simp [process_transaction, hin]
  · intro txs origin q i tx hget hin
    rw [Miner.add_transactions_to_queue,
      run_transactions_get ops m client client.best_block_header client.best_block_number
        origin txs q i tx hget]
    simp [process_transaction, hin]

/-- C3: a batch of N inputs yields exactly N results, the i-th result being
exactly the processing of the i-th input (so one transaction's failure never
aborts the rest of the batch). -/
theorem batch_result_per_input (ops : QueueOps) (m : Miner) (client : Client)
    (txs : List UnverifiedTransaction) (origin : TransactionOrigin)
    (q : TransactionQueue) :
    (Miner.add_transactions_to_queue ops m client txs origin q).1.length = txs.length
    ∧ (∀ (i : Nat) (tx : UnverifiedTransaction), txs[i]? = some tx →
      (Miner.add_transactions_to_queue ops m client txs origin q).1[i]? =
        some (process_transaction ops m client client.best_block_header
          client.best_block_number origin
          (run_transactions ops m client client.best_block_header
            client.best_block_number origin (txs.take i) q).2 tx).1) := by
  constructor
  · exact run_transactions_length ops m client client.best_block_header
      client.best_block_number origin txs q
  · intro i tx hget
    exact run_transactions_get ops m client client.best_block_header
      client.best_block_number origin txs q i tx hget

/-- C6: importing an own transaction runs the single-element batch with origin
`Local` and returns its one result (never the `none` that models the
`.expect` panic); the panic, modelled by `vec_pop` yielding `none`, would fire
exactly on an empty result list. -/
theorem own_import_single_local_result (ops : QueueOps) (m : Miner) (chain : Client)
    (transaction : SignedTransaction) :
    (Miner.import_own_transaction ops m chain transaction =
      some ((process_transaction ops m chain chain.best_block_header
          chain.best_block_number TransactionOrigin.Local m.transaction_queue
          transaction.into).1,
        { m with transaction_queue :=
            (process_transaction ops m chain chain.best_block_header
              chain.best_block_number TransactionOrigin.Local m.transaction_queue
              transaction.into).2 }))
    ∧ vec_pop ([] : List (Except Error TransactionImportResult)) = none := by
  constructor
  · simp [Miner.import_own_transaction, Miner.add_transactions_to_queue,
      run_transactions, vec_pop]
  · rfl

/-- C7: `set_engine_signer` forwards to the engine's `set_signer` exactly when
`seals_internally()` reports a value, and otherwise leaves the miner's state
untouched. -/
theorem engine_signer_gated_on_internal_sealing (m : Miner) (address : Address)
    (priv : Nat) :
    (m.engine.seals_internally.isSome →
      Miner.set_engine_signer m address priv =
        { m with engine := m.engine.set_signer address priv })
    ∧ (m.engine.seals_internally = none →
      Miner.set_engine_signer m address priv = m) := by
  constructor
  · intro hsome
    simp [Miner.set_engine_signer, hsome]
  · intro hnone
    simp [Miner.set_engine_signer, hnone]

/-- C8: the read accessors delegate exactly to the queue and mutate nothing:
`ready_transactions` returns the queue's `top_transactions`,
`future_transactions` the queue's `future_transactions`, `status` the queue's
pending and future counts with a constant zero pending-block count, and each
leaves the miner's state (queue, author, extra data) unchanged. -/
theorem read_accessors_delegate_pure (m : Miner) :
    (Miner.ready_transactions m).1 = m.transaction_queue.top_transactions
    ∧ (Miner.ready_transactions m).2 = m
    ∧ (Miner.future_transactions m).1 = m.transaction_queue.future_transactions
    ∧ (Miner.future_transactions m).2 = m
    ∧ (Miner.status m).1.transactions_in_pending_queue = m.transaction_queue.status.pending
    ∧ (Miner.status m).1.transactions_in_future_queue = m.transaction_queue.status.future
    ∧ (Miner.status m).1.transactions_in_pending_block = 0
    ∧ (Miner.status m).2 = m :=
  ⟨rfl, rfl, rfl, rfl, rfl, rfl, rfl, rfl⟩

/-- The per-transaction step only consults the engine at the batch's header
snapshot and the queue `add` at the batch's insertion time. -/
theorem process_transaction_snapshot_congr (ops1 ops2 : QueueOps) (m1 m2 : Miner)
    (client : Client) (origin : TransactionOrigin)
    (hbasic : ∀ tx, m1.engine.verify_transaction_basic tx client.best_block_header =
      m2.engine.verify_transaction_basic tx client.best_block_header)
    (hunord : ∀ tx, m1.engine.verify_transaction_unordered tx client.best_block_header =
      m2.engine.verify_transaction_unordered tx client.best_block_header)
    (hmach : ∀ t, m1.engine.machine_verify_transaction t client.best_block_header client =
      m2.engine.machine_verify_transaction t client.best_block_header client)
    (hadd : ∀ q t o d, ops1.add q t o client.best_block_number d =
      ops2.add q t o client.best_block_number d)
    (q : TransactionQueue) (tx : UnverifiedTransaction) :
    process_transaction ops1 m1 client client.best_block_header
      client.best_block_number origin q tx =
    process_transaction ops2 m2 client client.best_block_header
      client.best_block_number origin q tx := by
  simp only [process_transaction, hbasic, hunord, hmach, hadd]

/-- C10: the whole batch depends on the engine only through its answers at the
best-block header read before the loop, and on the queue's `add` only at the
single insertion time read before the loop (the chain's best block number at
batch start) — so all inputs are validated against one header snapshot and
inserted at one per-batch time, not a per-entry increasing sequence. -/
theorem batch_single_snapshot (ops1 ops2 : QueueOps) (m1 m2 : Miner) (client : Client)
    (txs : List UnverifiedTransaction) (origin : TransactionOrigin)
    (q : TransactionQueue)
    (hbasic : ∀ tx, m1.engine.verify_transaction_basic tx client.best_block_header =
      m2.engine.verify_transaction_basic tx client.best_block_header)
    (hunord : ∀ tx, m1.engine.verify_transaction_unordered tx client.best_block_header =
      m2.engine.verify_transaction_unordered tx client.best_block_header)
    (hmach : ∀ t, m1.engine.machine_verify_transaction t client.best_block_header client =
      m2.engine.machine_verify_transaction t client.best_block_header client)
    (hadd : ∀ q' t o d, ops1.add q' t o client.best_block_number d =
      ops2.add q' t o client.best_block_number d) :
    Miner.add_transactions_to_queue ops1 m1 client txs origin q =
      Miner.add_transactions_to_queue ops2 m2 client txs origin q := by
  rw [Miner.add_transactions_to_queue, Miner.add_transactions_to_queue]
  induction txs generalizing q with
  | nil => rfl
  | cons tx rest ih =>
    rw [run_transactions, run_transactions,
      process_transaction_snapshot_congr ops1 ops2 m1 m2 client origin
        hbasic hunord hmach hadd q tx, ih]

/-! ## Concrete instances for evaluation -/

def txA : UnverifiedTransaction := ⟨10⟩

def header0 : Header := ⟨0⟩

def queue0 : TransactionQueue :=
  { top_transactions := [], future_transactions := [], status := ⟨0, 0⟩,
    minimal_fee := 0, limit := 8 }

/-- An engine accepting every transaction. -/
def engineAccept : Engine :=
  { verify_transaction_basic := fun _ _ => Except.ok ()
    verify_transaction_unordered := fun tx _ => Except.ok ⟨tx, 3⟩
    machine_verify_transaction := fun _ _ _ => Except.ok ()
    seals_internally := some true
    signer := none }

/-- An engine failing the basic structural check. -/
def engineRejectBasic : Engine :=
  { engineAccept with verify_transaction_basic := fun _ _ => Except.error (Error.Other 1) }

/-- A client that knows no chain-included transaction; best block number 7. -/
def clientFresh : Client :=
  { best_block_header := header0, best_block_number := 7,
    transaction_block := fun _ => none,
    latest_nonce := fun _ => 0, latest_balance := fun _ => 0 }

/-- A client reporting every transaction hash as already included. -/
def clientIncluded : Client :=
  { clientFresh with transaction_block := fun _ => some 1 }

/-- A queue `add` that accepts into the pending partition. -/
def opsAccept : QueueOps :=
  { add := fun q _ _ _ _ => Except.ok (TransactionImportResult.Current, q) }

/-- A queue `add` whose answer depends on the insertion time: agrees with
`opsAccept` at time 7 and differs elsewhere. -/
def opsTimeSensitive : QueueOps :=
  { add := fun q _ _ time _ =>
      if time = 7 then Except.ok (TransactionImportResult.Current, q)
      else Except.ok (TransactionImportResult.Future, q) }

def minerA : Miner :=
  { transaction_queue := queue0, author := 0, extra_data := [], engine := engineAccept }

def minerRejectBasic : Miner := { minerA with engine := engineRejectBasic }

def minerNoSeal : Miner :=
  { minerA with engine := { engineAccept with seals_internally := none } }

/-! ## Witnesses -/

/-- Witness for C1: a concrete transaction failing the engine's basic check is
rejected with that error and the queue is untouched. -/
theorem admission_validation_order_witness :
    process_transaction opsAccept minerRejectBasic clientFresh header0 7
      TransactionOrigin.External queue0 txA = (Except.error (Error.Other 1), queue0) :=
  (admission_validation_order opsAccept minerRejectBasic clientFresh header0 7
    TransactionOrigin.External queue0 txA).2.1 (Error.Other 1) rfl rfl

/-- Witness for C2: a concrete already-included transaction's batch slot is
`AlreadyImported`. -/
theorem already_imported_always_rejected_witness :
    (Miner.add_transactions_to_queue opsAccept minerA clientIncluded [txA]
      TransactionOrigin.External queue0).1[0]? =
      some (Except.error (Error.Transaction TransactionError.AlreadyImported)) :=
  (already_imported_always_rejected opsAccept minerA clientIncluded).2 [txA]
    TransactionOrigin.External queue0 0 txA rfl rfl

/-- Witness for C3: a concrete one-element batch yields one result, namely the
processing of that one input. -/
theorem batch_result_per_input_witness :
    (Miner.add_transactions_to_queue opsAccept minerA clientFresh [txA]
      TransactionOrigin.External queue0).1.length = 1
    ∧ (Miner.add_transactions_to_queue opsAccept minerA clientFresh [txA]
      TransactionOrigin.External queue0).1[0]? =
      some (process_transaction opsAccept minerA clientFresh
        clientFresh.best_block_header clientFresh.best_block_number
        TransactionOrigin.External
        (run_transactions opsAccept minerA clientFresh clientFresh.best_block_header
          clientFresh.best_block_number TransactionOrigin.External
          (([txA] : List UnverifiedTransaction).take 0) queue0).2 txA).1 :=
  ⟨(batch_result_per_input opsAccept minerA clientFresh [txA]
      TransactionOrigin.External queue0).1,
   (batch_result_per_input opsAccept minerA clientFresh [txA]
      TransactionOrigin.External queue0).2 0 txA rfl⟩

/-- Witness for C4: concrete round-trips of all five message kinds, including
the degenerate empty Headers list, empty RequestBodies list, and a Bodies
message holding one empty inner list. -/
theorem message_rlp_roundtrip_witness :
    Message.decode (Message.rlp_append (Message.Status 1 2 3)) =
      Except.ok (Message.Status 1 2 3)
    ∧ Message.decode (Message.rlp_append (Message.RequestHeaders 100 100)) =
      Except.ok (Message.RequestHeaders 100 100)
    ∧ Message.decode (Message.rlp_append (Message.Headers [])) =
      Except.ok (Message.Headers [])
    ∧ Message.decode (Message.rlp_append (Message.RequestBodies [])) =
      Except.ok (Message.RequestBodies [])
    ∧ Message.decode (Message.rlp_append (Message.Bodies [[]])) =
      Except.ok (Message.Bodies [[]]) :=
  ⟨message_rlp_roundtrip (Message.Status 1 2 3) (by decide),
   message_rlp_roundtrip (Message.RequestHeaders 100 100) (by decide),
   message_rlp_roundtrip (Message.Headers []) (by decide),
   message_rlp_roundtrip (Message.RequestBodies []) (by decide),
   message_rlp_roundtrip (Message.Bodies [[]]) (by decide)⟩

/-- Witness for C5: a Status body of zero items is an incorrect-list-length
error, and id 0 is an unknown-message-id error. -/
theorem message_decode_error_cases_witness :
    Message.decode (Rlp.list [Rlp.val MESSAGE_ID_STATUS, Rlp.list []]) =
      Except.error DecoderError.RlpIncorrectListLen
    ∧ Message.decode (Rlp.list [Rlp.val 0, Rlp.list []]) =
      Except.error (DecoderError.Custom "Unknown message id detected") :=
  ⟨message_decode_error_cases.2.1 [] (by decide),
   message_decode_error_cases.2.2.2 0 (Rlp.list []) (by decide) (by decide)⟩

/-- Witness for C7: with an engine that does not seal internally, setting the
engine signer changes nothing. -/
theorem engine_signer_gated_witness :
    Miner.set_engine_signer minerNoSeal 5 6 = minerNoSeal :=
  (engine_signer_gated_on_internal_sealing minerNoSeal 5 6).2 rfl

/-- Witness for C10: two queue `add` operations agreeing at the batch's
insertion time (7, the client's best block number) but differing at every
other time produce identical batch outcomes. -/
theorem batch_single_snapshot_witness :
    Miner.add_transactions_to_queue opsTimeSensitive minerA clientFresh [txA]
      TransactionOrigin.External queue0 =
    Miner.add_transactions_to_queue opsAccept minerA clientFresh [txA]
      TransactionOrigin.External queue0 :=
  batch_single_snapshot opsTimeSensitive opsAccept minerA minerA clientFresh [txA]
    TransactionOrigin.External queue0 (fun _ => rfl) (fun _ => rfl) (fun _ => rfl)
    (fun _ _ _ _ => rfl)

end CodeChain
